import Mathlib

/-!
# Shallow embedding of the tuv-x delta-Eddington radiative-transfer solver

This file embeds the two source files of the repository,
`src/include/tuvx/radiative_transfer/solvers/delta_eddington.hh` and
`src/include/tuvx/radiative_transfer/solvers/solve.hh`, as executable Lean
definitions, and proves theorems about them.

Modelling conventions:
* The C++ code is templated over a scalar type `T`; the embedding is generic
  over a `Field T`.  The math-library calls `std::sqrt`, `std::exp`,
  `std::acos` and the constant `M_PI` are collected in an `Ops T` record and
  left uninterpreted; no theorem below depends on their analytic properties.
* `std::vector<T>` / `ArrayPolicy` become `List T`.  Reads `v[i]` become
  `List.getD v i 0` and writes `v[i] = x` become `List.set v i x` (an
  out-of-range C++ access is undefined behaviour; the theorems below only
  evaluate in-range accesses).
* The string-keyed `std::map<std::string, std::vector<T>>` parameter maps
  become structures with one field per key that the code accesses; a field
  comment names the key it embeds.  Where the source binds several names to
  the same key (`lambda`, `Gamma` and `mu` are all `.at("mu")` in
  `DeltaEddingtonApproximation`), the embedding routes all of their writes
  through the single shared field, as the source does.
* Loops become folds over `List.range`; mutation becomes explicit state
  passing in program order.
-/

namespace Tuvx

/-- The scalar operations the source takes from `<cmath>` (`std::sqrt`,
`std::exp`, `std::acos`, `M_PI`), left uninterpreted: the embedding is
parametric in them exactly as the C++ is templated over its scalar type. -/
structure Ops (T : Type) where
  sqrt : T → T
  exp : T → T
  acos : T → T
  pi : T

/-- The accumulated radiator state (`radiator.hpp` collaborator): the three
per-layer optical-property arrays, with the member names of the source. -/
structure RadiatorState (T : Type) where
  optical_depth_ : List T
  single_scattering_albedo_ : List T
  assymetry_parameter_ : List T

/-- The `solution_parameters` map as `DeltaEddingtonApproximation` accesses
it: keys `"gamma1"`, `"gamma2"`, `"gamma3"`, `"gamma4"` and `"mu"`.  The
source also binds the names `lambda` and `Gamma` to `.at("mu")`, so all
three of `mu`, `lambda` and `Gamma` denote the `mu` field here. -/
structure SolutionParametersDE (T : Type) where
  gamma1 : List T
  gamma2 : List T
  gamma3 : List T
  gamma4 : List T
  mu : List T

/-- One iteration of the loop of `DeltaEddingtonApproximation`
(delta_eddington.hh lines 34-44).  Per the source bindings (lines 19-21),
`omega` is `optical_depth_` and `g` is `single_scattering_albedo_`.  The
writes `lambda[i] = …` and `Gamma[i] = …` both go to the `mu` array (the
source binds all three names to `solution_parameters.at("mu")`), and the
trailing `mu = (T)0.5` assigns the scalar to the whole bound array, modelled
as overwriting every entry with `1/2`. -/
def DeltaEddingtonStep {T : Type} [Field T] (ops : Ops T) (omega g : List T)
    (szas : List T) (p : SolutionParametersDE T) (i : ℕ) :
    SolutionParametersDE T :=
  let mu_0 := ops.acos (szas.getD i 0)
  let gamma1 := p.gamma1.set i (7 - omega.getD i 0 * (4 + 3 * g.getD i 0))
  let gamma2 := p.gamma2.set i (-(1 - omega.getD i 0 * (4 - 3 * g.getD i 0)) / 4)
  let gamma3 := p.gamma3.set i ((2 - 3 * g.getD i 0 * mu_0) / 4)
  let mu1 := p.mu.set i
    (ops.sqrt (gamma1.getD i 0 * gamma1.getD i 0 - gamma2.getD i 0 * gamma2.getD i 0))
  let mu2 := mu1.set i
    (ops.sqrt (gamma1.getD i 0 * gamma1.getD i 0 - gamma2.getD i 0 * gamma2.getD i 0))
  let mu3 := List.replicate mu2.length ((1 : T) / 2)
  { gamma1 := gamma1, gamma2 := gamma2, gamma3 := gamma3, gamma4 := p.gamma4,
    mu := mu3 }

/-- `DeltaEddingtonApproximation` (delta_eddington.hh lines 12-45): loops
over the columns (`number_of_columns = solar_zenith_angles.size()`) updating
the gamma arrays and the shared `mu`/`lambda`/`Gamma` array. -/
def DeltaEddingtonApproximation {T : Type} [Field T] (ops : Ops T)
    (accumulated_radiator_states : RadiatorState T)
    (p : SolutionParametersDE T) (solar_zenith_angles : List T) :
    SolutionParametersDE T :=
  let omega := accumulated_radiator_states.optical_depth_
  let g := accumulated_radiator_states.single_scattering_albedo_
  (List.range solar_zenith_angles.length).foldl
    (DeltaEddingtonStep ops omega g solar_zenith_angles) p

/-- One iteration of the delta-scaling loop of `InitializeVariables`
(delta_eddington.hh lines 79-85), on the pair (omega, g); per the bindings of
lines 73-75, `omega` is `single_scattering_albedo_` and `g` is
`assymetry_parameter_`.  The source line `omega[i] = (omega - f) / (1 - f)`
subtracts the scalar from the array; it is modelled element-wise at `i`. -/
def DeltaScaleStep {T : Type} [Field T] (p : List T × List T) (i : ℕ) :
    List T × List T :=
  let omega := p.1
  let g := p.2
  let f := omega.getD i 0 * omega.getD i 0
  let omega := omega.set i ((omega.getD i 0 - f) / (1 - f))
  let g := g.set i ((1 - f) * g.getD i 0 / (1 - g.getD i 0 * f))
  let omega := omega.set i ((1 - g.getD i 0 * f) * omega.getD i 0)
  (omega, g)

/-- The delta-scaling loop of `InitializeVariables` (delta_eddington.hh
lines 77-85) over `number_of_columns` iterations.  The subsequent loop over
`tau` (lines 88-91) is the self-assignment `tau_n = tau_n`, a no-op, so
`optical_depth_` is returned unchanged by `InitializeVariables`. -/
def DeltaScale {T : Type} [Field T] (omega g : List T) (n : ℕ) :
    List T × List T :=
  (List.range n).foldl DeltaScaleStep (omega, g)

/-- The denominator `lambda * lambda - 1 / (mu_0 * mu_0)` of
delta_eddington.hh line 119.  The source computes it into the local
`denominator_term` and never reads it again: no source term is divided by
it and no near-zero check is made. -/
def denominatorTerm {T : Type} [Field T] (lam mu_0 : T) : T :=
  lam * lam - 1 / (mu_0 * mu_0)

/-- The `solution_parameters` map as `InitializeVariables` accesses it:
keys `"infrared source flux"` (`S_sfc_i`), `"solar source flux"`
(`S_sfc_s`), `"lambda"`, `"gamma1"`..`"gamma4"`, `"mu"`, and
`"source flux"` (bound to the name `R_sfc` at line 108). -/
structure SolutionParametersIV (T : Type) where
  infrared_source_flux : List T
  solar_source_flux : List T
  lambda : List T
  gamma1 : List T
  gamma2 : List T
  gamma3 : List T
  gamma4 : List T
  mu : List T
  source_flux : List T

/-- The `source_terms` map of `InitializeVariables`: keys `"C_upwelling"`
and `"C_downwelling"`. -/
structure SourceTerms (T : Type) where
  C_upwelling : List T
  C_downwelling : List T

/-- The mutable state threaded through the source-term loop of
`InitializeVariables` (lines 111-126): the running `tau_cumulative` and the
four arrays the loop writes. -/
structure SourceLoopState (T : Type) where
  tau_cumulative : T
  S_sfc_i : List T
  S_sfc_s : List T
  C_upwelling : List T
  C_downwelling : List T

/-- One iteration of the source-term loop of `InitializeVariables`
(delta_eddington.hh lines 115-126).  `exponential_term` follows line 118
(`omega * M_PI * R_sfc * exp(-(tau_cumulative - tau[i]) / mu_0)`, read
element-wise at `i`); the `denominator_term` of line 119 is computed and
then never used, exactly as in the source, so neither `C` term is divided
by it. -/
def SourceTermStep {T : Type} [Field T] (ops : Ops T)
    (szas tau omega lambda gamma1 gamma2 gamma3 gamma4 R_sfc : List T)
    (acc : SourceLoopState T) (i : ℕ) : SourceLoopState T :=
  let mu_0 := ops.acos (szas.getD i 0)
  let exponential_term := omega.getD i 0 * ops.pi * R_sfc.getD i 0 *
    ops.exp (-(acc.tau_cumulative - tau.getD i 0) / mu_0)
  let _denominator_term := denominatorTerm (lambda.getD i 0) mu_0
  let tau_cumulative := acc.tau_cumulative + tau.getD i 0
  { tau_cumulative := tau_cumulative,
    S_sfc_i := acc.S_sfc_i.set i
      (R_sfc.getD i 0 * mu_0 * ops.exp (-tau_cumulative / mu_0)),
    S_sfc_s := acc.S_sfc_s.set i (ops.pi * R_sfc.getD i 0),
    C_upwelling := acc.C_upwelling.set i
      (exponential_term *
        (((gamma1.getD i 0 - 1) / mu_0) * gamma3.getD i 0 +
          gamma4.getD i 0 * gamma2.getD i 0)),
    C_downwelling := acc.C_downwelling.set i
      (exponential_term *
        (((gamma1.getD i 0 + 1) / mu_0) * gamma4.getD i 0 +
          gamma2.getD i 0 * gamma3.getD i 0)) }

/-- The result of `InitializeVariables`: the mutated radiator state, the
mutated solution parameters and the mutated source terms. -/
structure InitializeResult (T : Type) where
  state : RadiatorState T
  params : SolutionParametersIV T
  sources : SourceTerms T

/-- `InitializeVariables` (delta_eddington.hh lines 54-128): binds `tau` to
`optical_depth_`, `omega` to `single_scattering_albedo_` and `g` to
`assymetry_parameter_` (lines 73-75), runs the delta-scaling loop, leaves
`tau` unchanged (the loop of lines 88-91 is a self-assignment), and then
runs the source-term loop with `tau_cumulative` starting at 0. -/
def InitializeVariables {T : Type} [Field T] (ops : Ops T)
    (solar_zenith_angles : List T) (state : RadiatorState T)
    (params : SolutionParametersIV T) (sources : SourceTerms T) :
    InitializeResult T :=
  let n := solar_zenith_angles.length
  let tau := state.optical_depth_
  let scaled := DeltaScale state.single_scattering_albedo_
    state.assymetry_parameter_ n
  let omega := scaled.1
  let g := scaled.2
  let final := (List.range n).foldl
    (SourceTermStep ops solar_zenith_angles tau omega params.lambda
      params.gamma1 params.gamma2 params.gamma3 params.gamma4
      params.source_flux)
    { tau_cumulative := 0, S_sfc_i := params.infrared_source_flux,
      S_sfc_s := params.solar_source_flux,
      C_upwelling := sources.C_upwelling,
      C_downwelling := sources.C_downwelling }
  { state := { optical_depth_ := tau, single_scattering_albedo_ := omega,
               assymetry_parameter_ := g },
    params := { params with
                  infrared_source_flux := final.S_sfc_i,
                  solar_source_flux := final.S_sfc_s },
    sources := { C_upwelling := final.C_upwelling,
                 C_downwelling := final.C_downwelling } }

/-- The `TridiagonalMatrix<T>` container (declared in
`linear_algebra.hpp`), with the member names of the source. -/
structure TridiagonalMatrix (T : Type) where
  upper_diagonal_ : List T
  main_diagonal_ : List T
  lower_diagonal_ : List T

/-- Modelled from the spec: the `TridiagonalMatrix<T>(size, value)`
constructor used at solve.hh line 50 lives in `linear_algebra.hpp`, which is
not among the repository files; per the spec (section 3) a tridiagonal
system holds three diagonals (lower, main, upper) whose common length is the
row count, so the constructor builds three diagonals of the given size
filled with the given value. -/
def tridiagonalMatrixMk {T : Type} (size : ℕ) (v : T) : TridiagonalMatrix T :=
  { upper_diagonal_ := List.replicate size v,
    main_diagonal_ := List.replicate size v,
    lower_diagonal_ := List.replicate size v }

/-- The tridiagonal system allocated by `Solve` (solve.hh lines 50-51):
`TridiagonalMatrix<T> coeffcient_matrix(number_of_columns, 0)` and
`std::vector<T> coeffcient_vector(number_of_columns, 0)`, where
`number_of_columns = solar_zenith_angles.size()` (line 41). -/
def solveAllocatedSystem {T : Type} [Field T] (solar_zenith_angles : List T) :
    TridiagonalMatrix T × List T :=
  (tridiagonalMatrixMk solar_zenith_angles.length 0,
   List.replicate solar_zenith_angles.length 0)

/-- The index sequence of a C++ loop `for (n = start; n < stop; n += 2)`:
`start`, `start + 2`, … below `stop`, in increasing order. -/
def strideIndices (start stop : ℕ) : List ℕ :=
  (List.range stop).filter fun n => start ≤ n && (n - start) % 2 == 0

/-- Writes `l[n] = vals n` for each `n` in `ns`, in order: the loop bodies of
the assembly functions write each visited index with a value computed only
from the read-only inputs, so a loop is this fold. -/
def applyRowUpdates {T : Type} (vals : ℕ → T) (ns : List ℕ) (l : List T) :
    List T :=
  ns.foldl (fun acc n => acc.set n (vals n)) l

/-- `AssembleTridiagonalMatrix` (delta_eddington.hh lines 130-180):
`matrix_size = 2 * number_of_layers`; first row (lines 154-157), odd rows
(`n = 1; n < matrix_size - 1; n += 2`, lines 160-165), even rows
(`n = 2; n < matrix_size - 2; n += 2`, lines 168-173), last row
(lines 175-178, `.back()` on each diagonal, combining `e1..e4` with
`R_sfc`).  The source interleaves the writes row by row, but each write
touches exactly one diagonal with a value read only from `e1..e4` and
`R_sfc`, so the three diagonals are updated independently; the embedding
performs each diagonal's writes in the source's program order. -/
def AssembleTridiagonalMatrix {T : Type} [Field T] (number_of_layers : ℕ)
    (e1 e2 e3 e4 : List T) (R_sfc : T)
    (coeffcient_matrix : TridiagonalMatrix T) : TridiagonalMatrix T :=
  let matrix_size := 2 * number_of_layers
  let odds := strideIndices 1 (matrix_size - 1)
  let evens := strideIndices 2 (matrix_size - 2)
  let upper :=
    let u := coeffcient_matrix.upper_diagonal_.set 0 0
    let u := applyRowUpdates
      (fun n => e2.getD (n + 1) 0 * e1.getD n 0 - e3.getD n 0 * e4.getD (n + 1) 0)
      odds u
    let u := applyRowUpdates
      (fun n => e2.getD n 0 * e3.getD n 0 - e4.getD n 0 * e1.getD n 0)
      evens u
    u.set (u.length - 1) 0
  let main :=
    let m := coeffcient_matrix.main_diagonal_.set 0 (e1.getD 0 0)
    let m := applyRowUpdates
      (fun n => e2.getD n 0 * e2.getD (n + 1) 0 - e3.getD n 0 * e4.getD (n + 1) 0)
      odds m
    let m := applyRowUpdates
      (fun n => e1.getD n 0 * e1.getD (n + 1) 0 - e3.getD n 0 * e3.getD (n + 1) 0)
      evens m
    m.set (m.length - 1) (e2.getD (e2.length - 1) 0 - R_sfc * e4.getD (e4.length - 1) 0)
  let lower :=
    let l := coeffcient_matrix.lower_diagonal_.set 0 (-(e2.getD 0 0))
    let l := applyRowUpdates
      (fun n => e3.getD n 0 * e4.getD (n + 1) 0 - e1.getD (n + 1) 0 * e2.getD (n + 1) 0)
      odds l
    let l := applyRowUpdates
      (fun n => e3.getD n 0 * e4.getD (n + 1) 0 - e1.getD (n + 1) 0 * e2.getD (n + 1) 0)
      evens l
    l.set (l.length - 1) (e1.getD (e1.length - 1) 0 - R_sfc * e3.getD (e3.length - 1) 0)
  { upper_diagonal_ := upper, main_diagonal_ := main, lower_diagonal_ := lower }

/-- `AssembleCoeffcientVector` (delta_eddington.hh lines 182-226): first row
(line 208), odd rows (lines 211-215), even rows (lines 218-222); the
`C_upwelling.start()` / `C_downwelling.start()` reads are the front
elements.  The function ends with the comment `// last row` and no
statement: the last entry of `coeffcient_vector` is never assigned, so it
keeps whatever value it held on entry.  `R_sfc` is extracted (line 200) but
never used. -/
def AssembleCoeffcientVector {T : Type} [Field T] (number_of_layers : ℕ)
    (e1 e2 e3 e4 : List T) (R_sfc f_0 : T)
    (C_upwelling C_downwelling : List T) (coeffcient_vector : List T) :
    List T :=
  let matrix_size := 2 * number_of_layers
  let _unused := R_sfc
  let v := coeffcient_vector.set 0 (f_0 - C_downwelling.getD 0 0)
  let v := applyRowUpdates
    (fun n =>
      e3.getD n 0 * (C_upwelling.getD 0 0 - C_upwelling.getD n 0) +
        e1.getD n 0 * (C_downwelling.getD n 0 - C_downwelling.getD 0 0))
    (strideIndices 1 (matrix_size - 1)) v
  let v := applyRowUpdates
    (fun n =>
      e2.getD (n + 1) 0 * (C_upwelling.getD 0 0 - C_upwelling.getD n 0) +
        e4.getD (n + 1) 0 * (C_downwelling.getD 0 0 - C_downwelling.getD n 0))
    (strideIndices 2 (matrix_size - 2)) v
  v

/-- The `RadiationField` output container: the six arrays
`spectral_irradiance_.direct_/upwelling_/downwelling_` and
`actinic_flux_.direct_/upwelling_/downwelling_`, flattened. -/
structure RadiationField (T : Type) where
  spectral_irradiance_direct_ : List T
  spectral_irradiance_upwelling_ : List T
  spectral_irradiance_downwelling_ : List T
  actinic_flux_direct_ : List T
  actinic_flux_upwelling_ : List T
  actinic_flux_downwelling_ : List T

/-- One fill loop of `ComputeRadiationField`: `int offset = c; for (elem :
arr) elem = offset++;` writes `c, c + 1, …` into the array, so element `k`
becomes `c + k` (cast from `int` to the scalar type). -/
def sequentialFill {T : Type} [Field T] (offset : ℕ) (l : List T) : List T :=
  (List.range l.length).map fun k => ((offset + k : ℕ) : T)

/-- `ComputeRadiationField` (delta_eddington.hh lines 228-273): ignores the
solar zenith angles, grids, profiles and solution parameters, and fills the
six radiation-field arrays with consecutive integers starting at 42, 93,
52, 5, 24 and 97 respectively (the source's own `[DEV NOTES]` call these
"predictable values" to be replaced once the solver is implemented). -/
def ComputeRadiationField {T : Type} [Field T] (solar_zenith_angles : List T)
    (grids profiles solution_parameters : List (List T))
    (radiation_field : RadiationField T) : RadiationField T :=
  let _unused := (solar_zenith_angles, grids, profiles, solution_parameters)
  { spectral_irradiance_direct_ :=
      sequentialFill 42 radiation_field.spectral_irradiance_direct_,
    spectral_irradiance_upwelling_ :=
      sequentialFill 93 radiation_field.spectral_irradiance_upwelling_,
    spectral_irradiance_downwelling_ :=
      sequentialFill 52 radiation_field.spectral_irradiance_downwelling_,
    actinic_flux_direct_ :=
      sequentialFill 5 radiation_field.actinic_flux_direct_,
    actinic_flux_upwelling_ :=
      sequentialFill 24 radiation_field.actinic_flux_upwelling_,
    actinic_flux_downwelling_ :=
      sequentialFill 97 radiation_field.actinic_flux_downwelling_ }

/-- Modelled from the spec: the direct-irradiance reconstruction of spec
section 4.5 is Beer's law, `F0 * exp(-tau_cum / mu_0)` at each layer
boundary, written here over a list of cumulative optical depths.  It is the
behaviour the spec prescribes for `ComputeRadiationField` and is compared
against the source's sequential fill. -/
def specBeerLawDirect {T : Type} [Field T] (ops : Ops T) (F_0 mu_0 : T)
    (tau_cums : List T) : List T :=
  tau_cums.map fun t => F_0 * ops.exp (-t / mu_0)

/-- A concrete instantiation of the uninterpreted scalar operations over ℚ,
used to evaluate the embedded functions at explicit inputs.  The divergences
exhibited below (aliased storage, a missing `/ 4`, an unused denominator, an
unwritten entry, a constant fill) hold for every interpretation of `sqrt`,
`exp` and `acos`; this one is chosen so that evaluation is exact rational
arithmetic with `acos 0 = 1` and `exp 0 = 1`. -/
def qOps : Ops ℚ :=
  { sqrt := fun x => x, exp := fun x => 1 + x, acos := fun x => 1 - x, pi := 3 }

/-! ## Helper lemmas about the assembly loops -/

lemma getD_set_same {α : Type} (l : List α) (i : ℕ) (v d : α)
    (h : i < l.length) : (l.set i v).getD i d = v := by
  simp [List.getD_eq_getElem?_getD, List.getElem?_set_self h]

lemma getD_set_of_ne {α : Type} (l : List α) (i j : ℕ) (v d : α)
    (h : i ≠ j) : (l.set i v).getD j d = l.getD j d := by
  simp [List.getD_eq_getElem?_getD, List.getElem?_set_ne h]

lemma applyRowUpdates_length {T : Type} (vals : ℕ → T) (ns : List ℕ)
    (l : List T) : (applyRowUpdates vals ns l).length = l.length := by
  induction ns generalizing l with
  | nil => rfl
  | cons n ns ih =>
      show (applyRowUpdates vals ns (l.set n (vals n))).length = l.length
      rw [ih, List.length_set]

lemma applyRowUpdates_getD_zero {T : Type} (vals : ℕ → T) (ns : List ℕ)
    (l : List T) (d : T) (h : ∀ n ∈ ns, 1 ≤ n) :
    (applyRowUpdates vals ns l).getD 0 d = l.getD 0 d := by
  induction ns generalizing l with
  | nil => rfl
  | cons n ns ih =>
      show (applyRowUpdates vals ns (l.set n (vals n))).getD 0 d = l.getD 0 d
      rw [ih _ (fun m hm => h m (List.mem_cons_of_mem n hm)),
        getD_set_of_ne l n 0 (vals n) d
          (Nat.one_le_iff_ne_zero.mp (h n (List.mem_cons_self n ns)))]

lemma strideIndices_start_le {s e n : ℕ} (h : n ∈ strideIndices s e) :
    s ≤ n := by
  have h2 := (List.mem_filter.mp h).2
  simp only [Bool.and_eq_true, decide_eq_true_eq, beq_iff_eq] at h2
  exact h2.1

/-- The front entry written before the interior loops survives them: each
interior loop only writes indices at least 1. -/
lemma chain_getD_zero {T : Type} (v1 v2 : ℕ → T) (odds evens : List ℕ)
    (h1 : ∀ n ∈ odds, 1 ≤ n) (h2 : ∀ n ∈ evens, 1 ≤ n)
    (l : List T) (a d : T) (hl : 0 < l.length) :
    (applyRowUpdates v2 evens (applyRowUpdates v1 odds (l.set 0 a))).getD 0 d
      = a := by
  rw [applyRowUpdates_getD_zero _ _ _ _ h2, applyRowUpdates_getD_zero _ _ _ _ h1,
    getD_set_same l 0 a d hl]

/-- The front entry also survives the final back-entry write, as long as the
diagonal has at least two entries. -/
lemma assembleChain_getD_zero {T : Type} (v1 v2 : ℕ → T) (odds evens : List ℕ)
    (h1 : ∀ n ∈ odds, 1 ≤ n) (h2 : ∀ n ∈ evens, 1 ≤ n)
    (l : List T) (a b d : T) (hl : 2 ≤ l.length) :
    ((applyRowUpdates v2 evens (applyRowUpdates v1 odds (l.set 0 a))).set
        ((applyRowUpdates v2 evens (applyRowUpdates v1 odds (l.set 0 a))).length - 1)
        b).getD 0 d = a := by
  have hlen : (applyRowUpdates v2 evens
      (applyRowUpdates v1 odds (l.set 0 a))).length = l.length := by
    rw [applyRowUpdates_length, applyRowUpdates_length, List.length_set]
  rw [getD_set_of_ne _ _ _ _ _ (by rw [hlen]; omega),
    chain_getD_zero v1 v2 odds evens h1 h2 l a d (by omega)]

/-! ## The claims -/

/-- Claim C1: the claim says the direct spectral irradiance written by
`ComputeRadiationField` follows Beer-law attenuation of the incident flux
and is not a sequential fill of arbitrary increasing integers.  The code
does the opposite: at a concrete two-boundary input it writes the
consecutive integers 42, 43 regardless of every optical input, while the
Beer-law reconstruction modelled from the spec gives the value 1 at both
boundaries of a transparent column with unit incident flux. -/
theorem C1_code_eval :
    (ComputeRadiationField ([0] : List ℚ) [] [] []
      ⟨[0, 0], [0], [0], [0], [0], [0]⟩).spectral_irradiance_direct_ = [42, 43] ∧
    specBeerLawDirect qOps (1 : ℚ) 1 [0, 0] = [1, 1] ∧ (1 : ℚ) < 42 := by
  norm_num [ComputeRadiationField, sequentialFill, specBeerLawDirect, qOps,
    List.range_succ]

/-- Claim C2: the claim says delta-scaling computes `f = g * g` from the
unscaled asymmetry parameter and updates omega, g and tau from pre-update
values.  The code instead computes `f = omega * omega`, rescales `omega`
twice (the second time through the already-updated `g`), and never scales
`tau`: at omega = 1/2, g = 1/4, tau = 2 the code yields omega = 19/60 and
leaves tau = 2, while the claimed formulas give omega = 15/31 and
tau = 31/16. -/
theorem C2_code_eval :
    DeltaScale ([1/2] : List ℚ) [1/4] 1 = ([19/60], [1/5]) ∧
    (19/60 : ℚ) < 15/31 ∧
    (InitializeVariables qOps [0] ⟨[2], [1/2], [1/4]⟩
      ⟨[0], [0], [2], [2], [1], [1], [1], [0], [1]⟩
      ⟨[0], [0]⟩).state.optical_depth_ = [2] ∧
    (31/16 : ℚ) < 2 := by
  norm_num [DeltaScale, DeltaScaleStep, InitializeVariables, SourceTermStep,
    qOps, List.range_succ]

/-- Claim C3: the claim gives the four gamma closed forms with a division
by 4 in gamma1 and `gamma4 = 1 - gamma3`.  The code computes
`gamma1 = 7 - omega * (4 + 3 * g)` without the division by 4 (at
omega = 1, g = 0 it yields 3 where the claimed formula yields 3/4) and
never writes gamma4 at all (it keeps its incoming value, 99 here, instead
of `1 - gamma3 = 1/2`). -/
theorem C3_code_eval :
    (DeltaEddingtonApproximation qOps ⟨[1], [0], [0]⟩
      ⟨[0], [0], [0], [99], [99]⟩ [0]).gamma1 = [3] ∧
    ((7 - 1 * (4 + 3 * 0)) / 4 : ℚ) < 3 ∧
    (DeltaEddingtonApproximation qOps ⟨[1], [0], [0]⟩
      ⟨[0], [0], [0], [99], [99]⟩ [0]).gamma3 = [1/2] ∧
    (DeltaEddingtonApproximation qOps ⟨[1], [0], [0]⟩
      ⟨[0], [0], [0], [99], [99]⟩ [0]).gamma4 = [99] ∧
    (1 - 1/2 : ℚ) < 99 := by
  norm_num [DeltaEddingtonApproximation, DeltaEddingtonStep, qOps,
    List.range_succ]

/-- Claim C4: the claim says both source terms are divided by
`denom = lambda^2 - 1/mu0^2`.  The code computes that denominator into a
local and never uses it: at a concrete input with denominator 3 the code
yields `C_downwelling = 38/5`, not the claimed `38/5 / 3`. -/
theorem C4_code_eval :
    (InitializeVariables qOps [0] ⟨[1], [1/2], [1/4]⟩
      ⟨[0], [0], [2], [2], [1], [1], [1], [0], [1]⟩
      ⟨[0], [0]⟩).sources.C_downwelling = [38/5] ∧
    denominatorTerm (2 : ℚ) (qOps.acos 0) = 3 ∧
    (38/5/3 : ℚ) < 38/5 := by
  norm_num [InitializeVariables, SourceTermStep, DeltaScale, DeltaScaleStep,
    denominatorTerm, qOps, List.range_succ]

/-- Claim C5: the claim says a near-zero denominator is detected and
signalled as a NumericalInstability error instead of being divided
through.  The code has no error path at all: at an input where the
denominator is exactly 0 it still computes both source terms (to 38/5 and
19/5) unconditionally, the denominator being computed and then discarded. -/
theorem C5_code_eval :
    denominatorTerm (1 : ℚ) (qOps.acos 0) = 0 ∧
    (InitializeVariables qOps [0] ⟨[1], [1/2], [1/4]⟩
      ⟨[0], [0], [1], [2], [1], [1], [1], [0], [1]⟩
      ⟨[0], [0]⟩).sources.C_downwelling = [38/5] ∧
    (InitializeVariables qOps [0] ⟨[1], [1/2], [1/4]⟩
      ⟨[0], [0], [1], [2], [1], [1], [1], [0], [1]⟩
      ⟨[0], [0]⟩).sources.C_upwelling = [19/5] := by
  norm_num [InitializeVariables, SourceTermStep, DeltaScale, DeltaScaleStep,
    denominatorTerm, qOps, List.range_succ]

/-- Claim C6: the claim says the assembled tridiagonal system has exactly
`2 * layer_count` rows independent of the column count.  `Solve`
(solve.hh lines 50-51) allocates the system with `number_of_columns` rows:
with 3 columns the allocated diagonals and right-hand side have 3 rows, an
odd number, which is not twice any layer count. -/
theorem C6_code_eval :
    (solveAllocatedSystem ([0, 0, 0] : List ℚ)).1.main_diagonal_.length = 3 ∧
    (solveAllocatedSystem ([0, 0, 0] : List ℚ)).2.length = 3 ∧
    (solveAllocatedSystem ([0, 0, 0] : List ℚ)).1.main_diagonal_.length % 2
      = 1 := by
  norm_num [solveAllocatedSystem, tridiagonalMatrixMk]

/-- Claim C7: the claim says the last row combines the bottom layer's
eigen-coefficients with the surface reflectivity in the main and lower
diagonals, zeroes the upper diagonal, and assigns the last right-hand-side
entry.  The matrix part holds at this concrete input (lower back entry
`e1 - R_sfc * e3 = -20`, main back entry `e2 - R_sfc * e4 = -24`, upper
back entry 0), but `AssembleCoeffcientVector` ends at its `// last row`
comment without a statement, so the last right-hand-side entry keeps its
incoming sentinel value 99. -/
theorem C7_code_eval :
    (AssembleTridiagonalMatrix 2 ([1, 2, 3, 4] : List ℚ) [5, 6, 7, 8]
      [9, 10, 11, 12] [13, 14, 15, 16] 2
      ⟨[99, 99, 99, 99], [99, 99, 99, 99], [99, 99, 99, 99]⟩).lower_diagonal_
      = [-5, 129, 99, -20] ∧
    (AssembleTridiagonalMatrix 2 ([1, 2, 3, 4] : List ℚ) [5, 6, 7, 8]
      [9, 10, 11, 12] [13, 14, 15, 16] 2
      ⟨[99, 99, 99, 99], [99, 99, 99, 99], [99, 99, 99, 99]⟩).main_diagonal_
      = [1, -108, 99, -24] ∧
    (AssembleTridiagonalMatrix 2 ([1, 2, 3, 4] : List ℚ) [5, 6, 7, 8]
      [9, 10, 11, 12] [13, 14, 15, 16] 2
      ⟨[99, 99, 99, 99], [99, 99, 99, 99], [99, 99, 99, 99]⟩).upper_diagonal_
      = [0, -136, 99, 0] ∧
    AssembleCoeffcientVector 2 ([1, 2, 3, 4] : List ℚ) [5, 6, 7, 8]
      [9, 10, 11, 12] [13, 14, 15, 16] 2 10 [1, 2, 3, 4] [5, 6, 7, 8]
      [99, 99, 99, 99] = [5, -8, 99, 99] := by
  have h1 : strideIndices 1 (2 * 2 - 1) = [1] := by decide
  have h2 : strideIndices 2 (2 * 2 - 2) = [] := by decide
  norm_num [AssembleTridiagonalMatrix, AssembleCoeffcientVector,
    applyRowUpdates, h1, h2]

/-- Claim C8: for every assembled system with at least two rows per
diagonal, row 0 has upper diagonal 0, main diagonal `e1[0]`, lower
diagonal `-e2[0]`, and right-hand side `f_0 - C_downwelling[0]`: the first
row is written first and the interior loops and the final back-entry
writes never touch index 0. -/
theorem C8_row_zero {T : Type} [Field T] (number_of_layers : ℕ)
    (e1 e2 e3 e4 : List T) (R_sfc f_0 : T) (C_up C_dn : List T)
    (m : TridiagonalMatrix T) (v : List T)
    (hu : 2 ≤ m.upper_diagonal_.length) (hm : 2 ≤ m.main_diagonal_.length)
    (hl : 2 ≤ m.lower_diagonal_.length) (hv : 1 ≤ v.length) :
    (AssembleTridiagonalMatrix number_of_layers e1 e2 e3 e4 R_sfc
      m).upper_diagonal_.getD 0 0 = 0 ∧
    (AssembleTridiagonalMatrix number_of_layers e1 e2 e3 e4 R_sfc
      m).main_diagonal_.getD 0 0 = e1.getD 0 0 ∧
    (AssembleTridiagonalMatrix number_of_layers e1 e2 e3 e4 R_sfc
      m).lower_diagonal_.getD 0 0 = -(e2.getD 0 0) ∧
    (AssembleCoeffcientVector number_of_layers e1 e2 e3 e4 R_sfc f_0 C_up
      C_dn v).getD 0 0 = f_0 - C_dn.getD 0 0 := by
  have hodds : ∀ n ∈ strideIndices 1 (2 * number_of_layers - 1), 1 ≤ n :=
    fun n hn => strideIndices_start_le hn
  have hevens : ∀ n ∈ strideIndices 2 (2 * number_of_layers - 2), 1 ≤ n :=
    fun n hn => Nat.le_trans (by norm_num) (strideIndices_start_le hn)
  refine ⟨?_, ?_, ?_, ?_⟩
  · simp only [AssembleTridiagonalMatrix]
    exact assembleChain_getD_zero _ _ _ _ hodds hevens _ _ _ _ hu
  · simp only [AssembleTridiagonalMatrix]
    exact assembleChain_getD_zero _ _ _ _ hodds hevens _ _ _ _ hm
  · simp only [AssembleTridiagonalMatrix]
    exact assembleChain_getD_zero _ _ _ _ hodds hevens _ _ _ _ hl
  · simp only [AssembleCoeffcientVector]
    exact chain_getD_zero _ _ _ _ hodds hevens _ _ _
      (Nat.lt_of_lt_of_le Nat.zero_lt_one hv)

/-- Witness for claim C8 at a concrete one-layer system over ℚ. -/
theorem C8_row_zero_witness :
    (AssembleTridiagonalMatrix 1 [5, 6] [7, 8] [1, 1] [1, 1] (2 : ℚ)
      ⟨[0, 0], [0, 0], [0, 0]⟩).upper_diagonal_.getD 0 0 = 0 ∧
    (AssembleTridiagonalMatrix 1 [5, 6] [7, 8] [1, 1] [1, 1] (2 : ℚ)
      ⟨[0, 0], [0, 0], [0, 0]⟩).main_diagonal_.getD 0 0
      = List.getD [5, 6] 0 0 ∧
    (AssembleTridiagonalMatrix 1 [5, 6] [7, 8] [1, 1] [1, 1] (2 : ℚ)
      ⟨[0, 0], [0, 0], [0, 0]⟩).lower_diagonal_.getD 0 0
      = -(List.getD [7, 8] 0 0) ∧
    (AssembleCoeffcientVector 1 [5, 6] [7, 8] [1, 1] [1, 1] (2 : ℚ) 10
      [1, 2] [3, 4] [0, 0]).getD 0 0 = 10 - List.getD [3, 4] 0 0 :=
  C8_row_zero 1 [5, 6] [7, 8] [1, 1] [1, 1] 2 10 [1, 2] [3, 4]
    ⟨[0, 0], [0, 0], [0, 0]⟩ [0, 0] (by decide) (by decide) (by decide)
    (by decide)

/-- Claim C9: the claim says lambda and Gamma are distinct quantities in
distinct storage with `Gamma = gamma2 / (gamma1 + lambda)`.  The code binds
`lambda`, `Gamma` and `mu` all to `solution_parameters.at("mu")`, computes
Gamma by the same square-root expression as lambda, and then overwrites the
shared array with the scalar 1/2 each iteration: at a concrete input the
final shared array holds 1/2, which equals neither the eigenvalue 783/16
nor the claimed coupling ratio -4/895. -/
theorem C9_code_eval :
    (DeltaEddingtonApproximation qOps ⟨[0], [0], [0]⟩
      ⟨[0], [0], [0], [0], [99]⟩ [0]).gamma1 = [7] ∧
    (DeltaEddingtonApproximation qOps ⟨[0], [0], [0]⟩
      ⟨[0], [0], [0], [0], [99]⟩ [0]).gamma2 = [-(1/4)] ∧
    (DeltaEddingtonApproximation qOps ⟨[0], [0], [0]⟩
      ⟨[0], [0], [0], [0], [99]⟩ [0]).mu = [1/2] ∧
    qOps.sqrt (7 * 7 - (1/4) * (1/4)) = 783/16 ∧
    (1/2 : ℚ) < 783/16 ∧
    ((-(1/4) : ℚ) / (7 + 783/16)) = -(4/895) ∧
    (-(4/895) : ℚ) < 1/2 := by
  norm_num [DeltaEddingtonApproximation, DeltaEddingtonStep, qOps,
    List.range_succ]

/-- Claim C10: for any two invocations of `ComputeRadiationField` whose six
radiation-field arrays have pairwise equal lengths, the outputs are
identical whatever the solar zenith angles, grids, profiles and solution
parameters, and each output array is the consecutive-integer fill starting
at 42, 93, 52, 5, 24 and 97 respectively: the output carries no
information from the numerical inputs. -/
theorem C10_output_independent {T : Type} [Field T]
    (szas1 szas2 : List T) (gr1 gr2 pr1 pr2 sp1 sp2 : List (List T))
    (rf1 rf2 : RadiationField T)
    (h1 : rf1.spectral_irradiance_direct_.length
      = rf2.spectral_irradiance_direct_.length)
    (h2 : rf1.spectral_irradiance_upwelling_.length
      = rf2.spectral_irradiance_upwelling_.length)
    (h3 : rf1.spectral_irradiance_downwelling_.length
      = rf2.spectral_irradiance_downwelling_.length)
    (h4 : rf1.actinic_flux_direct_.length = rf2.actinic_flux_direct_.length)
    (h5 : rf1.actinic_flux_upwelling_.length
      = rf2.actinic_flux_upwelling_.length)
    (h6 : rf1.actinic_flux_downwelling_.length
      = rf2.actinic_flux_downwelling_.length) :
    ComputeRadiationField szas1 gr1 pr1 sp1 rf1
      = ComputeRadiationField szas2 gr2 pr2 sp2 rf2 ∧
    (ComputeRadiationField szas1 gr1 pr1 sp1 rf1).spectral_irradiance_direct_
      = (List.range rf1.spectral_irradiance_direct_.length).map
          (fun k => ((42 + k : ℕ) : T)) ∧
    (ComputeRadiationField szas1 gr1 pr1 sp1 rf1).spectral_irradiance_upwelling_
      = (List.range rf1.spectral_irradiance_upwelling_.length).map
          (fun k => ((93 + k : ℕ) : T)) ∧
    (ComputeRadiationField szas1 gr1 pr1 sp1 rf1).spectral_irradiance_downwelling_
      = (List.range rf1.spectral_irradiance_downwelling_.length).map
          (fun k => ((52 + k : ℕ) : T)) ∧
    (ComputeRadiationField szas1 gr1 pr1 sp1 rf1).actinic_flux_direct_
      = (List.range rf1.actinic_flux_direct_.length).map
          (fun k => ((5 + k : ℕ) : T)) ∧
    (ComputeRadiationField szas1 gr1 pr1 sp1 rf1).actinic_flux_upwelling_
      = (List.range rf1.actinic_flux_upwelling_.length).map
          (fun k => ((24 + k : ℕ) : T)) ∧
    (ComputeRadiationField szas1 gr1 pr1 sp1 rf1).actinic_flux_downwelling_
      = (List.range rf1.actinic_flux_downwelling_.length).map
          (fun k => ((97 + k : ℕ) : T)) := by
  refine ⟨?_, rfl, rfl, rfl, rfl, rfl, rfl⟩
  simp only [ComputeRadiationField, sequentialFill, h1, h2, h3, h4, h5, h6]

/-- Witness for claim C10: two invocations over ℚ with different inputs but
equal array lengths produce identical outputs. -/
theorem C10_output_independent_witness :
    ComputeRadiationField ([0] : List ℚ) [] [] []
      ⟨[0], [0], [0], [0], [0], [0]⟩
      = ComputeRadiationField ([5] : List ℚ) [[1]] [[2]] [[3]]
        ⟨[9], [8], [7], [6], [5], [4]⟩ ∧
    (ComputeRadiationField ([0] : List ℚ) [] [] []
      ⟨[0], [0], [0], [0], [0], [0]⟩).spectral_irradiance_direct_
      = (List.range (List.length ([0] : List ℚ))).map
          (fun k => ((42 + k : ℕ) : ℚ)) ∧
    (ComputeRadiationField ([0] : List ℚ) [] [] []
      ⟨[0], [0], [0], [0], [0], [0]⟩).spectral_irradiance_upwelling_
      = (List.range (List.length ([0] : List ℚ))).map
          (fun k => ((93 + k : ℕ) : ℚ)) ∧
    (ComputeRadiationField ([0] : List ℚ) [] [] []
      ⟨[0], [0], [0], [0], [0], [0]⟩).spectral_irradiance_downwelling_
      = (List.range (List.length ([0] : List ℚ))).map
          (fun k => ((52 + k : ℕ) : ℚ)) ∧
    (ComputeRadiationField ([0] : List ℚ) [] [] []
      ⟨[0], [0], [0], [0], [0], [0]⟩).actinic_flux_direct_
      = (List.range (List.length ([0] : List ℚ))).map
          (fun k => ((5 + k : ℕ) : ℚ)) ∧
    (ComputeRadiationField ([0] : List ℚ) [] [] []
      ⟨[0], [0], [0], [0], [0], [0]⟩).actinic_flux_upwelling_
      = (List.range (List.length ([0] : List ℚ))).map
          (fun k => ((24 + k : ℕ) : ℚ)) ∧
    (ComputeRadiationField ([0] : List ℚ) [] [] []
      ⟨[0], [0], [0], [0], [0], [0]⟩).actinic_flux_downwelling_
      = (List.range (List.length ([0] : List ℚ))).map
          (fun k => ((97 + k : ℕ) : ℚ)) :=
  C10_output_independent [0] [5] [] [[1]] [] [[2]] [] [[3]]
    ⟨[0], [0], [0], [0], [0], [0]⟩ ⟨[9], [8], [7], [6], [5], [4]⟩
    rfl rfl rfl rfl rfl rfl

end Tuvx
